import Mathlib

/-!
Shallow embedding of `src/app.py` (Slack feedback-collection webhook app).

The program keeps a process-global dict `user_feedback_state` whose string
keys are Slack user ids mapping to per-user dicts (fields `user_name`,
`form_ts`, `rating`, `comments`, `submitted_threads`), plus two top-level
keys `jira_id` and `session_id` holding the most recently extracted
metadata, and a global list `feedback_store`.  External collaborators
(Slack HTTP API, the Postgres backend, the system clock, HMAC-SHA256 from
the standard library) are modelled as explicit parameters (`Ext`, the
`hmacHex` function argument); the records handed to the persistence
backend and the user/channel lookup calls made during one request are
reported in an `Effects` value.  Python exceptions are modelled with
`Except` / an explicit error response constructor: the `/slack/interactivity`
endpoint wraps its whole body in `try/except` returning a JSON error object,
while `/slack/events` has no handler, so its exceptions propagate.
-/

namespace FeedbackApp

/-- Python truthiness of an optional string value: `None` and `""` are
falsy, every other string is truthy. -/
def truthy : Option String → Bool
  | none => false
  | some s => if s = "" then false else true

/-- Python `a or b` on two optional strings (used for
`container.get("thread_ts") or container.get("message_ts")`). -/
def pyOr (a b : Option String) : Option String :=
  if truthy a then a else b

/-- Boolean list membership by decidable equality (Python `x in l`). -/
def memB {α : Type} [DecidableEq α] : List α → α → Bool
  | [], _ => false
  | x :: xs, a => if x = a then true else memB xs a

/-- Whether `needle` is a prechunk of `hay` (character lists). -/
def startsWithChars : List Char → List Char → Bool
  | [], _ => true
  | _ :: _, [] => false
  | a :: as, b :: bs => if a = b then startsWithChars as bs else false

/-- Whether `needle` occurs as a contiguous run inside `hay`
(Python `needle in hay` on strings). -/
def containsChars (needle : List Char) : List Char → Bool
  | [] => needle.isEmpty
  | c :: cs => if startsWithChars needle (c :: cs) then true else containsChars needle cs

/-- Python substring test `needle in hay`. -/
def strContains (hay needle : String) : Bool :=
  containsChars needle.toList hay.toList

/-- Digits-only parse of a character list (no sign), as used by Python
`int` after sign splitting; `none` when empty or a non-digit occurs. -/
def pyDigits? : List Char → Option Nat
  | [] => none
  | ds =>
    if ds.all Char.isDigit then
      some (ds.foldl (fun a c => a * 10 + (c.toNat - 48)) 0)
    else none

/-- Strip leading and trailing whitespace from a character list. -/
def stripWs (l : List Char) : List Char :=
  ((l.dropWhile Char.isWhitespace).reverse.dropWhile Char.isWhitespace).reverse

/-- Python `int(s)` on a string: optional surrounding whitespace, optional
sign, then decimal digits; `none` models the `ValueError` raise. -/
def pyInt? (s : String) : Option Int :=
  match stripWs s.toList with
  | '-' :: ds => (pyDigits? ds).map (fun n => -(n : Int))
  | '+' :: ds => (pyDigits? ds).map (fun n => (n : Int))
  | ds => (pyDigits? ds).map (fun n => (n : Int))

/-- Python exceptions that the embedded code paths can raise. -/
inductive PyError : Type
  | keyError (k : Option String)
  | typeError (msg : String)
  | valueError (msg : String)
  | dbError
deriving Repr, DecidableEq

/-- Embeds `verify_slack_request` (src/app.py lines 87-100).  `hmacHex`
stands for the standard library's hex HMAC-SHA256; `now` is `time.time()`
in whole seconds.  A missing timestamp header makes `int(None)` raise
`TypeError`; a non-numeric one raises `ValueError`; a missing signature
header reaches `hmac.compare_digest(str, None)` which raises `TypeError`
(only after the freshness check passed). -/
def verify_slack_request (secret : String) (hmacHex : String → String → String)
    (now : Int) (tsHdr sigHdr : Option String) (body : String) :
    Except PyError Bool :=
  match tsHdr with
  | none => .error (.typeError "int() argument must be a string, not NoneType")
  | some tsStr =>
    match pyInt? tsStr with
    | none => .error (.valueError "invalid literal for int() with base 10")
    | some ts =>
      if 300 < (now - ts).natAbs then
        .ok false
      else
        let my_signature := "v0=" ++ hmacHex secret ("v0:" ++ tsStr ++ ":" ++ body)
        match sigHdr with
        | none => .error (.typeError "unsupported types for compare_digest")
        | some sig => .ok (if my_signature = sig then true else false)

/-- Character class `[A-Z0-9-]` of the JIRA-id regex. -/
def isJiraChar (c : Char) : Bool :=
  (decide (65 ≤ c.toNat) && decide (c.toNat ≤ 90)) || c.isDigit || c = '-'

/-- Character class `[a-f0-9-]` of the session-id regex. -/
def isSessChar (c : Char) : Bool :=
  (decide (97 ≤ c.toNat) && decide (c.toNat ≤ 102)) || c.isDigit || c = '-'

/-- Maximal non-whitespace runs of a character list (Python `str.split()`
with no argument: split on whitespace runs, dropping empty pieces);
`acc` carries the current run reversed. -/
def wordsAux : List Char → List Char → List (List Char)
  | [], acc => if acc.isEmpty then [] else [acc.reverse]
  | ch :: cs, acc =>
    if ch.isWhitespace then
      if acc.isEmpty then wordsAux cs [] else acc.reverse :: wordsAux cs []
    else wordsAux cs (ch :: acc)

/-- Join character-list words with single spaces. -/
def joinSpace : List (List Char) → List Char
  | [] => []
  | [w] => w
  | w :: ws => w ++ ' ' :: joinSpace ws

/-- Python `" ".join(text.split())`: collapse all whitespace runs to
single spaces and strip the ends. -/
def normalizeWs (s : String) : String :=
  String.mk (joinSpace (wordsAux s.toList []))

/-- Leftmost match of the regex `JIRA ID:\s*([A-Z0-9-]+)`, returning the
captured group: scan for the literal, skip whitespace greedily, take the
longest nonempty run of class characters; on an empty run the scan
continues at the next position (no backtracking into `\s*` can help since
whitespace is not in the class). -/
def jiraSearch : List Char → Option String
  | [] => none
  | c :: cs =>
    if startsWithChars ("JIRA ID:".toList) (c :: cs) then
      let rest := (c :: cs).drop ("JIRA ID:".toList.length)
      let grp := (rest.dropWhile Char.isWhitespace).takeWhile isJiraChar
      if grp.isEmpty then jiraSearch cs else some (String.mk grp)
    else jiraSearch cs

/-- Python `s.rstrip(".")`. -/
def rstripDot (s : String) : String :=
  String.mk ((s.toList.reverse.dropWhile (fun c => c = '.')).reverse)

/-- Embeds `extract_jira_id` (src/app.py lines 131-134): normalize
whitespace, search `JIRA ID:\s*([A-Z0-9-]+)`, strip trailing dots from
the captured group. -/
def extract_jira_id (text : String) : Option String :=
  match jiraSearch (normalizeWs text).toList with
  | some g => some (rstripDot g)
  | none => none

/-- Completion of the regex `reference number.*?:\s*([a-f0-9-]+)` after the
literal `reference number`: the lazy gap `.*?` grows until a `:` is found
that is followed (after whitespace) by a nonempty class run; a `:` whose
continuation fails is swallowed into the gap and the scan continues. -/
def sessTail : List Char → Option String
  | [] => none
  | c :: rest =>
    if c = ':' then
      let grp := (rest.dropWhile Char.isWhitespace).takeWhile isSessChar
      if grp.isEmpty then sessTail rest else some (String.mk grp)
    else sessTail rest

/-- Leftmost match of `reference number.*?:\s*([a-f0-9-]+)`: find the first
occurrence of the literal and complete with `sessTail` (a later literal
occurrence scans a suffix of the same tail, so the first occurrence
deciding the search is extensionally the regex's behaviour). -/
def sessSearch : List Char → Option String
  | [] => none
  | c :: cs =>
    if startsWithChars ("reference number".toList) (c :: cs) then
      sessTail ((c :: cs).drop ("reference number".toList.length))
    else sessSearch cs

/-- Embeds `extract_session_id` (src/app.py lines 136-139). -/
def extract_session_id (text : String) : Option String :=
  sessSearch (normalizeWs text).toList

/-- Per-user entry of the `user_feedback_state` dict.  Every field is a
dict key that may be absent; `submitted_threads` is a list of the
`thread_ts` values (themselves possibly `None`) appended at submit time. -/
structure Session : Type where
  userName : Option String
  formTs : Option String
  rating : Option String
  comments : Option String
  submittedThreads : Option (List (Option String))
deriving Repr, DecidableEq

/-- Fresh empty per-user dict `{}`. -/
def Session.empty : Session :=
  { userName := none, formTs := none, rating := none, comments := none,
    submittedThreads := none }

/-- One row handed to `insert_feedback_to_db` / appended to
`feedback_store` (the `feedback_data` dict of the submit branch). -/
structure Feedback : Type where
  channel_name : String
  channel_id : Option String
  user_id : Option String
  user_name : String
  thread_ts : Option String
  rating : String
  comments : String
  jira_id : Option String
  session_id : Option String
  timestamp : Int
deriving Repr, DecidableEq

/-- Global mutable state of the process: the per-user entries of
`user_feedback_state`, its two top-level metadata keys `jira_id` and
`session_id` (absent and `None` are conflated, as every read goes through
`dict.get`), and the in-memory `feedback_store` list. -/
structure AppState : Type where
  sessions : List (Option String × Session)
  jiraId : Option String
  sessionId : Option String
  feedbackStore : List Feedback
deriving Repr, DecidableEq

/-- Dict read `user_feedback_state.get(k)` restricted to user entries. -/
def lookupSession : List (Option String × Session) → Option String → Option Session
  | [], _ => none
  | (k, v) :: rest, u => if k = u then some v else lookupSession rest u

/-- Dict write `user_feedback_state[k] = v` (replace or append). -/
def setSession : List (Option String × Session) → Option String → Session →
    List (Option String × Session)
  | [], u, s => [(u, s)]
  | (k, v) :: rest, u, s =>
    if k = u then (u, s) :: rest else (k, v) :: setSession rest u s

/-- External calls made while handling one request: rows received by the
persistence backend, `users.info` lookups, `conversations.info` lookups. -/
structure Effects : Type where
  dbInserts : List Feedback
  userLookups : List (Option String)
  channelLookups : List (Option String)
deriving Repr, DecidableEq

/-- No external calls. -/
def noEffects : Effects :=
  { dbInserts := [], userLookups := [], channelLookups := [] }

/-- Environment of external collaborators for one request: the display
names the Slack API would return, the `ts` of the posted form message,
whether the DB insert succeeds, and the clock. -/
structure Ext : Type where
  getUserName : Option String → String
  getChannelName : Option String → String
  formTs : Option String
  dbOk : Bool
  now : Int

/-- Parsed first element of the `actions` array of a `block_actions`
payload. -/
structure ActionItem : Type where
  actionId : Option String
  selectedValue : Option String
  value : Option String
deriving Repr, DecidableEq

/-- Parsed `/slack/interactivity` payload (the JSON under the `payload`
form field). -/
structure ActionPayload : Type where
  ptype : String
  actions : List ActionItem
  userId : Option String
  channelId : Option String
  containerThreadTs : Option String
  containerMessageTs : Option String
  stateFeedbackValue : Option String
deriving Repr, DecidableEq

/-- JSON body returned by `/slack/interactivity`. -/
inductive IResponse : Type
  | ok
  | text (s : String)
  | error (e : PyError)
deriving Repr, DecidableEq

/-- Branch classifier for the `elif` chain on `action_id` (the four
recognized identifiers are pairwise distinct, so first-match order is
immaterial). -/
inductive ActionKind : Type
  | showForm | ratingSelect | feedbackText | submitFeedback | other
deriving Repr, DecidableEq

/-- Classify an `action_id` into its `elif` branch. -/
def classifyAction (a : Option String) : ActionKind :=
  if a = some "show_feedback_form" then .showForm
  else if a = some "rating_select" then .ratingSelect
  else if a = some "feedback_text" then .feedbackText
  else if a = some "submit_feedback" then .submitFeedback
  else .other

/-- Embeds the `show_feedback_form` branch (src/app.py lines 312-325)
together with the `form_ts` capture done inside `send_feedback_form`
(lines 268-273): duplicate-display guard on `submitted_threads`, then a
`users.info` lookup, `user_name` stored into the (possibly fresh) user
entry, the form posted, and its `ts` stored when user id and ts are
truthy.  The branch falls through to the final `{"status": "ok"}`. -/
def show_feedback_form_branch (ext : Ext) (st : AppState)
    (user_id thread_ts : Option String) : IResponse × AppState × Effects :=
  let state := (lookupSession st.sessions user_id).getD Session.empty
  if memB (state.submittedThreads.getD []) thread_ts then
    (.text "You have already submitted feedback for this thread. Thank you!",
     st, noEffects)
  else
    let user_name := ext.getUserName user_id
    let sessions1 := setSession st.sessions user_id { state with userName := some user_name }
    let sessions2 :=
      if truthy user_id && truthy ext.formTs then
        let s2 := (lookupSession sessions1 user_id).getD Session.empty
        setSession sessions1 user_id { s2 with formTs := ext.formTs }
      else sessions1
    (.ok, { st with sessions := sessions2 },
     { noEffects with userLookups := [user_id] })

/-- Embeds the `rating_select` branch (src/app.py lines 327-331): guarded
by truthiness of `user_id` and the selected value, then
`user_feedback_state[user_id]["rating"] = rating`, which raises `KeyError`
when the user has no entry (caught by the endpoint's `except`). -/
def rating_select_branch (st : AppState) (user_id rating : Option String) :
    IResponse × AppState × Effects :=
  if truthy user_id && truthy rating then
    match lookupSession st.sessions user_id with
    | none => (.error (.keyError user_id), st, noEffects)
    | some s =>
      (.ok, { st with sessions := setSession st.sessions user_id { s with rating := rating } },
       noEffects)
  else (.ok, st, noEffects)

/-- Embeds the `feedback_text` branch (src/app.py lines 333-337):
`user_feedback_state[user_id]["comments"] = text`, raising `KeyError` for
an unknown user id. -/
def feedback_text_branch (st : AppState) (user_id : Option String) (text : String) :
    IResponse × AppState × Effects :=
  if truthy user_id then
    match lookupSession st.sessions user_id with
    | none => (.error (.keyError user_id), st, noEffects)
    | some s =>
      (.ok, { st with sessions := setSession st.sessions user_id { s with comments := some text } },
       noEffects)
  else (.ok, st, noEffects)

/-- Embeds the `submit_feedback` branch (src/app.py lines 339-374).  The
rating gate is plain truthiness of `state.get("rating")` — no range check.
The thread is appended to `submitted_threads` BEFORE any external call;
the mutation reaches the store only when the user entry exists (otherwise
`state` was a fresh dict, but then `rating` was absent and the gate
already returned).  `comments` come from the payload's `state.values`
(the session's `comments` field is not read).  The record is appended to
`feedback_store` and then inserted; a failing insert raises after the
mark and the append, and the `except` handler turns it into an error
response. -/
def submit_feedback_branch (ext : Ext) (st : AppState)
    (user_id channel_id thread_ts : Option String) (stateVal : String) :
    IResponse × AppState × Effects :=
  let state := (lookupSession st.sessions user_id).getD Session.empty
  if truthy state.rating then
    let sessions1 :=
      match lookupSession st.sessions user_id with
      | some s =>
        setSession st.sessions user_id
          { s with submittedThreads := some (s.submittedThreads.getD [] ++ [thread_ts]) }
      | none => st.sessions
    let stateA := (lookupSession sessions1 user_id).getD
      { state with submittedThreads := some (state.submittedThreads.getD [] ++ [thread_ts]) }
    let user_name :=
      if truthy stateA.userName then stateA.userName.getD ""
      else ext.getUserName user_id
    let user_lookups : List (Option String) :=
      if truthy stateA.userName then [] else [user_id]
    let fb : Feedback :=
      { channel_name := ext.getChannelName channel_id
        channel_id := channel_id
        user_id := user_id
        user_name := user_name
        thread_ts := thread_ts
        rating := state.rating.getD ""
        comments := stateVal
        jira_id := st.jiraId
        session_id := st.sessionId
        timestamp := ext.now }
    let st1 := { st with sessions := sessions1, feedbackStore := st.feedbackStore ++ [fb] }
    if ext.dbOk then
      (.text "Thank you for your valuable feedback!", st1,
       { dbInserts := [fb], userLookups := user_lookups, channelLookups := [channel_id] })
    else
      (.error .dbError, st1,
       { dbInserts := [], userLookups := user_lookups, channelLookups := [channel_id] })
  else
    (.text "Please select a rating before submitting.", st, noEffects)

/-- Embeds the `/slack/interactivity` endpoint (src/app.py lines 296-380)
from the point where the `payload` form field has been parsed.  Non
`block_actions` payloads and unrecognized action ids fall through to
`{"status": "ok"}`; an empty `actions` array makes `data["actions"][0]`
raise (caught, returned as an error object). -/
def slack_interactivity (ext : Ext) (st : AppState) (p : ActionPayload) :
    IResponse × AppState × Effects :=
  if p.ptype = "block_actions" then
    match p.actions with
    | [] => (.error (.keyError (some "actions")), st, noEffects)
    | a :: _ =>
      match classifyAction a.actionId with
      | .showForm =>
        show_feedback_form_branch ext st p.userId
          (pyOr p.containerThreadTs p.containerMessageTs)
      | .ratingSelect => rating_select_branch st p.userId a.selectedValue
      | .feedbackText => feedback_text_branch st p.userId (a.value.getD "")
      | .submitFeedback =>
        submit_feedback_branch ext st p.userId p.channelId
          (pyOr p.containerThreadTs p.containerMessageTs) (p.stateFeedbackValue.getD "")
      | .other => (.ok, st, noEffects)
  else (.ok, st, noEffects)

/-- Parsed JSON body of an `/slack/events` delivery. -/
structure EventBody : Type where
  etype : String
  challenge : Option String
  eventType : Option String
  hasSubtype : Bool
  text : Option String
  channel : Option String
  threadTs : Option String
  ts : Option String
  eventUser : Option String
deriving Repr, DecidableEq

/-- JSON body returned by `/slack/events`. -/
inductive EResponse : Type
  | challenge (s : String)
  | invalidSignature
  | ok
deriving Repr, DecidableEq

/-- Embeds the `/slack/events` endpoint (src/app.py lines 168-197).  The
endpoint has no `try/except`, so any exception from
`verify_slack_request` (or a missing `challenge` field) propagates as
`Except.error` instead of producing a JSON response.  On a trigger
message (no subtype, text containing the resolution phrase) the two
global metadata keys are overwritten with the freshly extracted values
and a `users.info` lookup plus the yes-button post happen. -/
def slack_events (secret : String) (hmacHex : String → String → String)
    (tsHdr sigHdr : Option String) (body : String)
    (data : EventBody) (ext : Ext) (st : AppState) :
    Except PyError (EResponse × AppState × Effects) :=
  match verify_slack_request secret hmacHex ext.now tsHdr sigHdr body with
  | .error e => .error e
  | .ok false => .ok (.invalidSignature, st, noEffects)
  | .ok true =>
    if data.etype = "url_verification" then
      match data.challenge with
      | none => .error (.keyError (some "challenge"))
      | some c => .ok (.challenge c, st, noEffects)
    else
      if data.etype = "event_callback" then
        if data.eventType = some "message" && !data.hasSubtype then
          let user_text := (data.text).getD ""
          if strContains user_text
              "The issue you reported has been successfully addressed" then
            let st1 := { st with jiraId := extract_jira_id user_text,
                                 sessionId := extract_session_id user_text }
            .ok (.ok, st1, { noEffects with userLookups := [data.eventUser] })
          else .ok (.ok, st, noEffects)
        else .ok (.ok, st, noEffects)
      else .ok (.ok, st, noEffects)

end FeedbackApp

namespace FeedbackApp

/-! ### Infrastructure lemmas about the state store -/

/-- Reading the store after a write: the written key returns the new
value, other keys are untouched. -/
theorem lookup_setSession (l : List (Option String × Session))
    (k u : Option String) (v : Session) :
    lookupSession (setSession l k v) u =
      if k = u then some v else lookupSession l u := by
  induction l with
  | nil => simp [setSession, lookupSession]
  | cons hd tl ih =>
    obtain ⟨k', v'⟩ := hd
    by_cases hk : k' = k
    · subst hk
      by_cases hu : k' = u
      · simp [setSession, lookupSession, hu]
      · simp [setSession, lookupSession, hu]
    · by_cases hu : k' = u
      · subst hu
        have hku : ¬ k = k' := fun h => hk h.symm
        simp [setSession, lookupSession, hk, hku]
      · simp [setSession, lookupSession, hk, hu, ih]

/-- Membership survives appending on the right. -/
theorem memB_append_left {α : Type} [DecidableEq α] (l₁ l₂ : List α) (a : α)
    (h : memB l₁ a = true) : memB (l₁ ++ l₂) a = true := by
  induction l₁ with
  | nil => simp [memB] at h
  | cons x xs ih =>
    by_cases hx : x = a
    · simp [memB, hx]
    · simp only [memB, if_neg hx] at h
      simp [memB, if_neg hx, ih h]

/-- A nonempty string is truthy. -/
theorem truthy_some {s : String} (h : s ≠ "") : truthy (some s) = true := by
  simp [truthy, h]

/-! ### Dispatch of the `elif` chain on concrete action ids -/

/-- Generic single-action `block_actions` payload builder used to state
claims about the four branches. -/
def mkPayload (aid sel v u ch tts mts sv : Option String) : ActionPayload :=
  { ptype := "block_actions",
    actions := [{ actionId := aid, selectedValue := sel, value := v }],
    userId := u, channelId := ch, containerThreadTs := tts,
    containerMessageTs := mts, stateFeedbackValue := sv }

/-- A `show_feedback_form` payload reaches its branch. -/
theorem interactivity_show (ext : Ext) (st : AppState)
    (sel v u ch tts mts sv : Option String) :
    slack_interactivity ext st (mkPayload (some "show_feedback_form") sel v u ch tts mts sv) =
      show_feedback_form_branch ext st u (pyOr tts mts) := rfl

/-- A `rating_select` payload reaches its branch. -/
theorem interactivity_rating (ext : Ext) (st : AppState)
    (sel v u ch tts mts sv : Option String) :
    slack_interactivity ext st (mkPayload (some "rating_select") sel v u ch tts mts sv) =
      rating_select_branch st u sel := rfl

/-- A `feedback_text` payload reaches its branch. -/
theorem interactivity_text (ext : Ext) (st : AppState)
    (sel u ch tts mts sv : Option String) (v : Option String) :
    slack_interactivity ext st (mkPayload (some "feedback_text") sel v u ch tts mts sv) =
      feedback_text_branch st u (v.getD "") := rfl

/-- A `submit_feedback` payload reaches its branch. -/
theorem interactivity_submit (ext : Ext) (st : AppState)
    (sel v u ch tts mts sv : Option String) :
    slack_interactivity ext st (mkPayload (some "submit_feedback") sel v u ch tts mts sv) =
      submit_feedback_branch ext st u ch (pyOr tts mts) (sv.getD "") := rfl

end FeedbackApp

namespace FeedbackApp

/-! ### Monotonicity of the submitted marking -/

/-- Whether `thread_ts` is recorded in `user_id`'s `submitted_threads`
list (the program's only notion of "this session is submitted"). -/
def markedIn (l : List (Option String × Session)) (u t : Option String) : Bool :=
  match lookupSession l u with
  | some s => memB (s.submittedThreads.getD []) t
  | none => false

/-- A store write whose new value keeps every recorded thread of the old
value preserves every marking. -/
theorem markedIn_set (l : List (Option String × Session))
    (k : Option String) (vNew : Session) (u t : Option String)
    (hpres : ∀ s, lookupSession l k = some s →
      memB (s.submittedThreads.getD []) t = true →
      memB (vNew.submittedThreads.getD []) t = true)
    (h : markedIn l u t = true) : markedIn (setSession l k vNew) u t = true := by
  by_cases hk : k = u
  · subst hk
    unfold markedIn at h ⊢
    rw [lookup_setSession, if_pos rfl]
    match hl : lookupSession l k with
    | some s =>
      rw [hl] at h
      exact hpres s hl h
    | none => rw [hl] at h; exact absurd h (by simp)
  · unfold markedIn at h ⊢
    rw [lookup_setSession, if_neg hk]
    exact h

/-- The `show_feedback_form` branch never removes a submitted marking. -/
theorem show_branch_marked_mono (ext : Ext) (st : AppState)
    (uid tts u t : Option String) (h : markedIn st.sessions u t = true) :
    markedIn (show_feedback_form_branch ext st uid tts).2.1.sessions u t = true := by
  unfold show_feedback_form_branch
  by_cases hdup :
      memB ((((lookupSession st.sessions uid).getD Session.empty).submittedThreads).getD []) tts = true
  · simp only [hdup, if_pos, if_true]
    exact h
  · rw [if_neg (by simp [hdup])]
    by_cases hcap : (truthy uid && truthy ext.formTs) = true
    · simp only [hcap, if_true]
      refine markedIn_set _ _ _ _ _ ?_ (markedIn_set _ _ _ _ _ ?_ h)
      · intro s hs hmem
        rw [lookup_setSession, if_pos rfl] at hs
        cases hs
        rw [lookup_setSession, if_pos rfl]
        simpa using hmem
      · intro s hs hmem
        simp only [hs, Option.getD_some]
        exact hmem
    · simp only [hcap, if_false]
      refine markedIn_set _ _ _ _ _ ?_ h
      intro s hs hmem
      simp only [hs, Option.getD_some]
      exact hmem

/-- The `rating_select` branch never removes a submitted marking. -/
theorem rating_branch_marked_mono (st : AppState) (uid r u t : Option String)
    (h : markedIn st.sessions u t = true) :
    markedIn (rating_select_branch st uid r).2.1.sessions u t = true := by
  unfold rating_select_branch
  by_cases hg : (truthy uid && truthy r) = true
  · simp only [hg, if_true]
    match hl : lookupSession st.sessions uid with
    | none => exact h
    | some s =>
      refine markedIn_set _ _ _ _ _ ?_ h
      intro s' hs' hmem
      rw [hl] at hs'
      cases hs'
      exact hmem
  · simp only [hg, if_false]
    exact h

/-- The `feedback_text` branch never removes a submitted marking. -/
theorem text_branch_marked_mono (st : AppState) (uid : Option String) (v : String)
    (u t : Option String) (h : markedIn st.sessions u t = true) :
    markedIn (feedback_text_branch st uid v).2.1.sessions u t = true := by
  unfold feedback_text_branch
  by_cases hg : truthy uid = true
  · simp only [hg, if_true]
    match hl : lookupSession st.sessions uid with
    | none => exact h
    | some s =>
      refine markedIn_set _ _ _ _ _ ?_ h
      intro s' hs' hmem
      rw [hl] at hs'
      cases hs'
      exact hmem
  · simp only [hg, if_false]
    exact h

/-- The `submit_feedback` branch only appends to `submitted_threads`. -/
theorem submit_branch_marked_mono (ext : Ext) (st : AppState)
    (uid ch tts : Option String) (sv : String) (u t : Option String)
    (h : markedIn st.sessions u t = true) :
    markedIn (submit_feedback_branch ext st uid ch tts sv).2.1.sessions u t = true := by
  unfold submit_feedback_branch
  by_cases hg : truthy (((lookupSession st.sessions uid).getD Session.empty).rating) = true
  · simp only [hg, if_true]
    by_cases hdb : ext.dbOk = true
    · simp only [hdb, if_true]
      match hl : lookupSession st.sessions uid with
      | none => exact h
      | some s =>
        refine markedIn_set _ _ _ _ _ ?_ h
        intro s' hs' hmem
        rw [hl] at hs'
        cases hs'
        simpa using memB_append_left _ [tts] t hmem
    · simp only [hdb, if_false]
      match hl : lookupSession st.sessions uid with
      | none => exact h
      | some s =>
        refine markedIn_set _ _ _ _ _ ?_ h
        intro s' hs' hmem
        rw [hl] at hs'
        cases hs'
        simpa using memB_append_left _ [tts] t hmem
  · simp only [hg, if_false]
    exact h

end FeedbackApp

namespace FeedbackApp

/-! ### Concrete fixtures for witnesses and counterexamples -/

/-- External environment where every collaborator call succeeds. -/
def extOK : Ext :=
  { getUserName := fun _ => "Alice", getChannelName := fun _ => "help",
    formTs := some "111.22", dbOk := true, now := 1700000000 }

/-- Same environment, but the persistence insert raises. -/
def extFail : Ext :=
  { extOK with dbOk := false }

/-- A user entry that has displayed the form and selected rating 4. -/
def sess4 : Session :=
  { userName := some "Alice", formTs := some "111.22", rating := some "4",
    comments := none, submittedThreads := none }

/-- Store holding U1's session above plus previously extracted global
metadata. -/
def st4 : AppState :=
  { sessions := [(some "U1", sess4)], jiraId := some "OLD-1",
    sessionId := some "1e0a", feedbackStore := [] }

/-- Empty store. -/
def stEmpty : AppState :=
  { sessions := [], jiraId := none, sessionId := none, feedbackStore := [] }

/-- U1 pressing submit in thread T1. -/
def submitU1T1 : ActionPayload :=
  mkPayload (some "submit_feedback") none none (some "U1") (some "C1")
    (some "T1") none (some "great support")

/-- A `url_verification` events body. -/
def evChallengeBody : EventBody :=
  { etype := "url_verification", challenge := some "tok", eventType := none,
    hasSubtype := false, text := none, channel := none, threadTs := none,
    ts := none, eventUser := none }

/-! ### Claim C2 -/

/-- C2 counterexample: the claim says that once a session is submitted no
rating_select action mutates its rating.  In the code, after U1's submit
has marked thread T1 as submitted, a further `rating_select` with value 5
still overwrites the stored rating (4 becomes 5) while the marking is in
place. -/
theorem c2_mutation_after_submit :
    (let st1 := (slack_interactivity extOK st4 submitU1T1).2.1
     markedIn st1.sessions (some "U1") (some "T1") = true ∧
     ((lookupSession st1.sessions (some "U1")).getD Session.empty).rating = some "4" ∧
     (let st2 := (slack_interactivity extOK st1
        (mkPayload (some "rating_select") (some "5") none (some "U1") none none none none)).2.1
      ((lookupSession st2.sessions (some "U1")).getD Session.empty).rating = some "5" ∧
      markedIn st2.sessions (some "U1") (some "T1") = true)) := by
  decide

/-- C2 (amended): the submitted marking is monotonic — no interactivity
delivery ever removes a thread from a user's `submitted_threads` list —
but, as the counterexample shows, rating/comment mutations are NOT blocked
after submission. -/
theorem c2_submitted_monotonic (ext : Ext) (st : AppState) (p : ActionPayload)
    (u t : Option String) (h : markedIn st.sessions u t = true) :
    markedIn (slack_interactivity ext st p).2.1.sessions u t = true := by
  unfold slack_interactivity
  by_cases hp : p.ptype = "block_actions"
  · rw [if_pos hp]
    cases hA : p.actions with
    | nil => exact h
    | cons a rest =>
      cases hC : classifyAction a.actionId with
      | showForm =>
        simp only [hC]
        exact show_branch_marked_mono ext st p.userId _ u t h
      | ratingSelect =>
        simp only [hC]
        exact rating_branch_marked_mono st p.userId a.selectedValue u t h
      | feedbackText =>
        simp only [hC]
        exact text_branch_marked_mono st p.userId _ u t h
      | submitFeedback =>
        simp only [hC]
        exact submit_branch_marked_mono ext st p.userId p.channelId _ _ u t h
      | other =>
        simp only [hC]
        exact h
  · rw [if_neg hp]
    exact h

/-- C2 witness: the monotonicity theorem applied to the just-submitted
store of the counterexample and the rating_select delivery. -/
theorem c2_submitted_monotonic_witness :
    markedIn ((slack_interactivity extOK
        ((slack_interactivity extOK st4 submitU1T1).2.1)
        (mkPayload (some "rating_select") (some "5") none (some "U1") none none none none)).2.1).sessions
      (some "U1") (some "T1") = true :=
  c2_submitted_monotonic extOK _ _ (some "U1") (some "T1") (by decide)

/-! ### Claim C7 -/

/-- C7: a `block_actions` delivery whose first action carries an action_id
that is none of the four recognized identifiers falls through every `elif`
to the final `return` and yields the non-error `{"status": "ok"}`
acknowledgement with no state mutation and no external call. -/
theorem c7_unrecognized_action_noop (ext : Ext) (st : AppState)
    (p : ActionPayload) (a : ActionItem) (rest : List ActionItem)
    (hp : p.ptype = "block_actions") (ha : p.actions = a :: rest)
    (h1 : a.actionId ≠ some "show_feedback_form")
    (h2 : a.actionId ≠ some "rating_select")
    (h3 : a.actionId ≠ some "feedback_text")
    (h4 : a.actionId ≠ some "submit_feedback") :
    slack_interactivity ext st p = (.ok, st, noEffects) := by
  have hc : classifyAction a.actionId = .other := by
    simp [classifyAction, h1, h2, h3, h4]
  simp [slack_interactivity, hp, ha, hc]

/-- C7 witness: a `close_dialog` action id is acknowledged as a no-op. -/
theorem c7_unrecognized_action_noop_witness :
    slack_interactivity extOK st4
      (mkPayload (some "close_dialog") none none (some "U1") none none none none) =
      (.ok, st4, noEffects) :=
  c7_unrecognized_action_noop extOK st4 _ _ _ rfl rfl
    (by decide) (by decide) (by decide) (by decide)

/-! ### Claim C4 -/

/-- C4: for a timestamp header that parses, verification returns false
whenever the timestamp is more than 300 seconds from `now`, regardless of
the claimed signature; inside the window it succeeds exactly when the
claimed signature equals "v0=" ++ HMAC-SHA256(secret, "v0:" ++ timestamp
++ ":" ++ body). -/
theorem c4_verify_window_and_signature (secret : String)
    (hmacHex : String → String → String) (now : Int) (tsStr : String)
    (t : Int) (body : String) (hts : pyInt? tsStr = some t) :
    (∀ sigHdr : Option String, 300 < (now - t).natAbs →
      verify_slack_request secret hmacHex now (some tsStr) sigHdr body = .ok false) ∧
    (∀ sig : String, ¬ 300 < (now - t).natAbs →
      (verify_slack_request secret hmacHex now (some tsStr) (some sig) body = .ok true ↔
        sig = "v0=" ++ hmacHex secret ("v0:" ++ tsStr ++ ":" ++ body))) := by
  constructor
  · intro sigHdr hold
    unfold verify_slack_request
    simp [hts, hold]
  · intro sig hfresh
    unfold verify_slack_request
    simp only [hts, if_neg hfresh]
    constructor
    · intro hok
      by_cases he : "v0=" ++ hmacHex secret ("v0:" ++ tsStr ++ ":" ++ body) = sig
      · exact he.symm
      · rw [if_neg he] at hok
        simp at hok
    · intro he
      rw [if_pos he.symm]

/-- C4 witness: with a concrete HMAC function, a matching signature inside
the window verifies and the same signature outside the window is
rejected. -/
theorem c4_verify_window_and_signature_witness :
    verify_slack_request "k" (fun a b => a ++ b) 0 (some "5") (some "v0=kv0:5:B") "B" = .ok true ∧
    verify_slack_request "k" (fun a b => a ++ b) 1000 (some "5") (some "v0=kv0:5:B") "B" = .ok false := by
  constructor
  · exact ((c4_verify_window_and_signature "k" (fun a b => a ++ b) 0 "5" 5 "B"
      (by decide)).2 "v0=kv0:5:B" (by decide)).mpr (by decide)
  · exact (c4_verify_window_and_signature "k" (fun a b => a ++ b) 1000 "5" 5 "B"
      (by decide)).1 (some "v0=kv0:5:B") (by decide)

/-! ### Claim C10 -/

/-- C10: a missing or non-numeric X-Slack-Request-Timestamp header makes
verify_slack_request raise instead of returning a verdict, and the events
endpoint (having no try/except) propagates exactly that exception rather
than answering with the clean invalid-signature JSON; when both headers
are present and the timestamp parses, verification is total and returns a
boolean verdict. -/
theorem c10_missing_header_raises (secret : String)
    (hmacHex : String → String → String) (ext : Ext) (st : AppState)
    (data : EventBody) (body : String) :
    (∀ sigHdr : Option String, ∃ e,
      verify_slack_request secret hmacHex ext.now none sigHdr body = .error e ∧
      slack_events secret hmacHex none sigHdr body data ext st = .error e) ∧
    (∀ tsStr : String, ∀ sigHdr : Option String, pyInt? tsStr = none → ∃ e,
      verify_slack_request secret hmacHex ext.now (some tsStr) sigHdr body = .error e ∧
      slack_events secret hmacHex (some tsStr) sigHdr body data ext st = .error e) ∧
    (∀ tsStr : String, ∀ t : Int, ∀ sig : String, pyInt? tsStr = some t → ∃ b,
      verify_slack_request secret hmacHex ext.now (some tsStr) (some sig) body = .ok b) := by
  refine ⟨?_, ?_, ?_⟩
  · intro sigHdr
    exact ⟨.typeError "int() argument must be a string, not NoneType", rfl, rfl⟩
  · intro tsStr sigHdr hts
    refine ⟨.valueError "invalid literal for int() with base 10", ?_, ?_⟩
    · unfold verify_slack_request
      simp [hts]
    · unfold slack_events verify_slack_request
      simp [hts]
  · intro tsStr t sig hts
    unfold verify_slack_request
    simp only [hts]
    by_cases hw : 300 < (ext.now - t).natAbs
    · refine ⟨false, ?_⟩
      simp [hw]
    · refine ⟨if "v0=" ++ hmacHex secret ("v0:" ++ tsStr ++ ":" ++ body) = sig
        then true else false, ?_⟩
      simp [hw]

/-- C10 witness: concrete missing-header, non-numeric-header and
well-formed-header instances. -/
theorem c10_missing_header_raises_witness :
    (∃ e, verify_slack_request "k" (fun a b => a ++ b) extOK.now none (some "sig") "B" = .error e ∧
      slack_events "k" (fun a b => a ++ b) none (some "sig") "B" evChallengeBody extOK stEmpty = .error e) ∧
    (∃ e, verify_slack_request "k" (fun a b => a ++ b) extOK.now (some "12x") (some "sig") "B" = .error e ∧
      slack_events "k" (fun a b => a ++ b) (some "12x") (some "sig") "B" evChallengeBody extOK stEmpty = .error e) ∧
    (∃ b, verify_slack_request "k" (fun a b => a ++ b) extOK.now (some "12") (some "sig") "B" = .ok b) :=
  ⟨(c10_missing_header_raises "k" (fun a b => a ++ b) extOK stEmpty evChallengeBody "B").1 (some "sig"),
   (c10_missing_header_raises "k" (fun a b => a ++ b) extOK stEmpty evChallengeBody "B").2.1
     "12x" (some "sig") (by decide),
   (c10_missing_header_raises "k" (fun a b => a ++ b) extOK stEmpty evChallengeBody "B").2.2
     "12" 12 "sig" (by decide)⟩

end FeedbackApp

namespace FeedbackApp

/-- The appended element is a member. -/
theorem memB_append_self {α : Type} [DecidableEq α] (l : List α) (a : α) :
    memB (l ++ [a]) a = true := by
  induction l with
  | nil => simp [memB]
  | cons x xs ih =>
    by_cases hx : x = a
    · simp [memB, hx]
    · simp [memB, hx, ih]

/-! ### Claim C6 -/

/-- C6 counterexample: the claim says a rating_select for a user with no
session responds with a non-error acknowledgement; in the code the store
write raises `KeyError`, the endpoint's catch-all turns it into an
`{"error": ...}` JSON body — an error object, not a plain
acknowledgement. -/
theorem c6_unknown_session_error :
    (slack_interactivity extOK stEmpty
      (mkPayload (some "rating_select") (some "3") none (some "U9") none none none none)).1 =
      .error (.keyError (some "U9")) := by
  decide

/-- C6 (amended): rating_select and feedback_text actions for a user with
no session mutate no state and make no external call, but the response is
the catch-all `{"error": str(KeyError)}` object rather than a non-error
acknowledgement. -/
theorem c6_unknown_session_no_mutation (ext : Ext) (st : AppState)
    (u r : String) (hu : u ≠ "") (hr : r ≠ "")
    (hnone : lookupSession st.sessions (some u) = none)
    (sel ch tts mts sv v : Option String) :
    slack_interactivity ext st
        (mkPayload (some "rating_select") (some r) v (some u) ch tts mts sv) =
      (.error (.keyError (some u)), st, noEffects) ∧
    slack_interactivity ext st
        (mkPayload (some "feedback_text") sel v (some u) ch tts mts sv) =
      (.error (.keyError (some u)), st, noEffects) := by
  constructor
  · rw [interactivity_rating]
    unfold rating_select_branch
    simp [truthy_some hu, truthy_some hr, hnone]
  · rw [interactivity_text]
    unfold feedback_text_branch
    simp [truthy_some hu, hnone]

/-- C6 witness: the amended theorem at user U9 on the empty store. -/
theorem c6_unknown_session_no_mutation_witness :
    slack_interactivity extOK stEmpty
        (mkPayload (some "rating_select") (some "3") none (some "U9") none none none none) =
      (.error (.keyError (some "U9")), stEmpty, noEffects) :=
  (c6_unknown_session_no_mutation extOK stEmpty "U9" "3" (by decide) (by decide) rfl
    none none none none none none).1

/-! ### Claim C3 -/

/-- C3 counterexample: the claim says a submit is accepted only when the
rating is within 1..5; the code accepts any non-empty rating string.  A
rating_select delivery carrying value "6" is stored, and the subsequent
submit persists a record with rating "6" and answers with the success
message instead of the validation message. -/
theorem c3_out_of_range_accepted :
    (let st0 : AppState :=
       { sessions := [(some "U1", Session.empty)], jiraId := none,
         sessionId := none, feedbackStore := [] }
     let st1 := (slack_interactivity extOK st0
       (mkPayload (some "rating_select") (some "6") none (some "U1") none none none none)).2.1
     let out := slack_interactivity extOK st1
       (mkPayload (some "submit_feedback") none none (some "U1") (some "C1") (some "T1") none (some ""))
     out.1 = .text "Thank you for your valuable feedback!" ∧
     out.2.2.dbInserts.map Feedback.rating = ["6"]) := by
  decide

/-- C3 (amended): the submit gate is plain Python truthiness of the
session's stored rating — no range check.  A falsy (absent or empty)
rating yields the validation message with no persistence and unchanged
state; any truthy rating string is accepted and persisted verbatim. -/
theorem c3_truthiness_gate (ext : Ext) (st : AppState)
    (u ch tts mts sv sel v : Option String) :
    (truthy (((lookupSession st.sessions u).getD Session.empty).rating) = false →
      slack_interactivity ext st
          (mkPayload (some "submit_feedback") sel v u ch tts mts sv) =
        (.text "Please select a rating before submitting.", st, noEffects)) ∧
    (truthy (((lookupSession st.sessions u).getD Session.empty).rating) = true →
      ext.dbOk = true →
      ∃ fb : Feedback,
        (slack_interactivity ext st
            (mkPayload (some "submit_feedback") sel v u ch tts mts sv)).2.2.dbInserts = [fb] ∧
        fb.rating = (((lookupSession st.sessions u).getD Session.empty).rating).getD "") := by
  constructor
  · intro hf
    rw [interactivity_submit]
    unfold submit_feedback_branch
    simp [hf]
  · intro ht hdb
    rw [interactivity_submit]
    unfold submit_feedback_branch
    simp only [ht, if_true, hdb]
    exact ⟨_, rfl, rfl⟩

/-- C3 witness: a submit with no rating on the empty store gets the
validation message; U1's submit with stored rating "4" persists exactly
one record carrying rating "4". -/
theorem c3_truthiness_gate_witness :
    slack_interactivity extOK stEmpty
        (mkPayload (some "submit_feedback") none none (some "U9") none none none none) =
      (.text "Please select a rating before submitting.", stEmpty, noEffects) ∧
    (∃ fb : Feedback,
      (slack_interactivity extOK st4 submitU1T1).2.2.dbInserts = [fb] ∧ fb.rating = "4") := by
  constructor
  · exact (c3_truthiness_gate extOK stEmpty (some "U9") none none none none none none).1
      (by decide)
  · obtain ⟨fb, h1, h2⟩ := (c3_truthiness_gate extOK st4 (some "U1") (some "C1")
      (some "T1") none (some "great support") none none).2 (by decide) rfl
    exact ⟨fb, h1, h2.trans (by decide)⟩

/-! ### Claim C8 -/

/-- C8 counterexample: the claim says a failing persistence write leaves
the session unmarked; in the code the thread is appended to
`submitted_threads` before `insert_feedback_to_db`, so after a failing
insert the session is already marked while the backend received no
record. -/
theorem c8_marked_despite_db_failure :
    (let out := slack_interactivity extFail st4 submitU1T1
     out.1 = .error .dbError ∧
     out.2.2.dbInserts = [] ∧
     markedIn out.2.1.sessions (some "U1") (some "T1") = true) := by
  decide

/-- C8 (amended): the submitted marking happens strictly before the
persistence write: when the insert raises, the handler returns the error
object, the backend receives nothing, yet the thread is already recorded
in `submitted_threads` and the in-memory `feedback_store` already holds
the record. -/
theorem c8_mark_precedes_persist (ext : Ext) (st : AppState) (u : String)
    (s : Session) (ch tts mts sv sel v : Option String)
    (hs : lookupSession st.sessions (some u) = some s)
    (hr : truthy s.rating = true) (hdb : ext.dbOk = false) :
    (slack_interactivity ext st
        (mkPayload (some "submit_feedback") sel v (some u) ch tts mts sv)).1 =
      .error .dbError ∧
    (slack_interactivity ext st
        (mkPayload (some "submit_feedback") sel v (some u) ch tts mts sv)).2.2.dbInserts = [] ∧
    markedIn (slack_interactivity ext st
        (mkPayload (some "submit_feedback") sel v (some u) ch tts mts sv)).2.1.sessions
      (some u) (pyOr tts mts) = true ∧
    (slack_interactivity ext st
        (mkPayload (some "submit_feedback") sel v (some u) ch tts mts sv)).2.1.feedbackStore.length =
      st.feedbackStore.length + 1 := by
  rw [interactivity_submit]
  unfold submit_feedback_branch
  rw [hs]
  simp only [Option.getD_some, hr, if_true, hdb, Bool.false_eq_true, if_false]
  refine ⟨by trivial, by trivial, ?_, by simp⟩
  unfold markedIn
  rw [lookup_setSession, if_pos rfl]
  simpa using memB_append_self (s.submittedThreads.getD []) (pyOr tts mts)

/-- C8 witness: the amended theorem at U1's rating-4 session with the
failing backend. -/
theorem c8_mark_precedes_persist_witness :
    markedIn (slack_interactivity extFail st4 submitU1T1).2.1.sessions
      (some "U1") (pyOr (some "T1") none) = true :=
  (c8_mark_precedes_persist extFail st4 "U1" sess4 (some "C1") (some "T1") none
    (some "great support") none none rfl (by decide) rfl).2.2.1

end FeedbackApp

namespace FeedbackApp

/-! ### Claim C9 -/

/-- C9 counterexample: the claim says the persisted record contains the
last comment entered via the feedback_text action; the code persists the
comment text carried inside the submit delivery's `state.values` instead
(the session's `comments` field is written but never read).  Here the user
entered "great support", the submit payload carries an empty form state,
and the persisted comment is "" while the session still holds
"great support". -/
theorem c9_comment_not_from_session :
    (let st0 : AppState :=
       { sessions := [(some "U1", Session.empty)], jiraId := none,
         sessionId := none, feedbackStore := [] }
     let st1 := (slack_interactivity extOK st0
       (mkPayload (some "rating_select") (some "3") none (some "U1") none none none none)).2.1
     let st2 := (slack_interactivity extOK st1
       (mkPayload (some "feedback_text") none (some "great support") (some "U1") none none none none)).2.1
     let st3 := (slack_interactivity extOK st2
       (mkPayload (some "rating_select") (some "5") none (some "U1") none none none none)).2.1
     let out := slack_interactivity extOK st3
       (mkPayload (some "submit_feedback") none none (some "U1") (some "C1") (some "T1") none (some ""))
     ((lookupSession st3.sessions (some "U1")).getD Session.empty).comments = some "great support" ∧
     out.2.2.dbInserts.map Feedback.comments = [""] ∧
     out.2.2.dbInserts.map Feedback.rating = ["5"]) := by
  decide

/-- C9 (amended): in the rating/comment/re-rating/submit sequence the
intermediate actions make no external call and never mark the thread
submitted; the submit persists exactly one record whose rating is the
last rating selected and whose comments are the text carried in the
submit delivery's embedded form state (the session's comments field is
not consulted). -/
theorem c9_last_rating_and_payload_comment (ext : Ext) (st0 : AppState)
    (u r1 c r2 sv : String) (s0 : Session) (ch tts mts : Option String)
    (hu : u ≠ "") (hr1 : r1 ≠ "") (hr2 : r2 ≠ "")
    (hs : lookupSession st0.sessions (some u) = some s0)
    (hdb : ext.dbOk = true) :
    (let o1 := slack_interactivity ext st0
       (mkPayload (some "rating_select") (some r1) none (some u) ch tts mts none)
     let o2 := slack_interactivity ext o1.2.1
       (mkPayload (some "feedback_text") none (some c) (some u) ch tts mts none)
     let o3 := slack_interactivity ext o2.2.1
       (mkPayload (some "rating_select") (some r2) none (some u) ch tts mts none)
     let o4 := slack_interactivity ext o3.2.1
       (mkPayload (some "submit_feedback") none none (some u) ch tts mts (some sv))
     (o1.2.2 = noEffects ∧ o2.2.2 = noEffects ∧ o3.2.2 = noEffects) ∧
     (lookupSession o3.2.1.sessions (some u)).map Session.submittedThreads =
       some s0.submittedThreads ∧
     o4.2.2.dbInserts.map (fun f => (f.rating, f.comments)) = [(r2, sv)] ∧
     o4.1 = .text "Thank you for your valuable feedback!") := by
  have e1 : slack_interactivity ext st0
      (mkPayload (some "rating_select") (some r1) none (some u) ch tts mts none) =
      (.ok, ({ st0 with
          sessions := setSession st0.sessions (some u)
            { s0 with rating := some r1 } } : AppState), noEffects) := by
    rw [interactivity_rating]
    unfold rating_select_branch
    simp [truthy_some hu, truthy_some hr1, hs]
  have l1 : lookupSession (setSession st0.sessions (some u) { s0 with rating := some r1 })
      (some u) = some { s0 with rating := some r1 } := by
    rw [lookup_setSession, if_pos rfl]
  have e2 : slack_interactivity ext
      { st0 with sessions := setSession st0.sessions (some u) { s0 with rating := some r1 } }
      (mkPayload (some "feedback_text") none (some c) (some u) ch tts mts none) =
      (.ok, ({ st0 with
          sessions := setSession
            (setSession st0.sessions (some u) { s0 with rating := some r1 }) (some u)
            { s0 with rating := some r1, comments := some c } } : AppState), noEffects) := by
    rw [interactivity_text]
    unfold feedback_text_branch
    simp [truthy_some hu, l1]
  have l2 : lookupSession (setSession
      (setSession st0.sessions (some u) { s0 with rating := some r1 }) (some u)
      { s0 with rating := some r1, comments := some c }) (some u) =
      some { s0 with rating := some r1, comments := some c } := by
    rw [lookup_setSession, if_pos rfl]
  have e3 : slack_interactivity ext
      { st0 with
          sessions := setSession
            (setSession st0.sessions (some u) { s0 with rating := some r1 }) (some u)
            { s0 with rating := some r1, comments := some c } }
      (mkPayload (some "rating_select") (some r2) none (some u) ch tts mts none) =
      (.ok, ({ st0 with
          sessions := setSession (setSession
            (setSession st0.sessions (some u) { s0 with rating := some r1 }) (some u)
            { s0 with rating := some r1, comments := some c }) (some u)
            { s0 with rating := some r2, comments := some c } } : AppState), noEffects) := by
    rw [interactivity_rating]
    unfold rating_select_branch
    simp [truthy_some hu, truthy_some hr2, l2]
  have l3 : lookupSession (setSession (setSession
      (setSession st0.sessions (some u) { s0 with rating := some r1 }) (some u)
      { s0 with rating := some r1, comments := some c }) (some u)
      { s0 with rating := some r2, comments := some c }) (some u) =
      some { s0 with rating := some r2, comments := some c } := by
    rw [lookup_setSession, if_pos rfl]
  simp only [e1, e2, e3]
  refine ⟨⟨by trivial, by trivial, by trivial⟩, ?_, ?_, ?_⟩
  · simp [l3]
  · rw [interactivity_submit]
    unfold submit_feedback_branch
    rw [l3]
    simp [truthy_some hr2, hdb]
  · rw [interactivity_submit]
    unfold submit_feedback_branch
    rw [l3]
    simp [truthy_some hr2, hdb]

/-- C9 witness: the amended theorem on U1's fresh session with ratings 3
then 5, comment "great support", and an empty submit form state. -/
theorem c9_last_rating_and_payload_comment_witness :
    (let st0 : AppState :=
       { sessions := [(some "U1", Session.empty)], jiraId := none,
         sessionId := none, feedbackStore := [] }
     let o1 := slack_interactivity extOK st0
       (mkPayload (some "rating_select") (some "3") none (some "U1") (some "C1") (some "T1") none none)
     let o2 := slack_interactivity extOK o1.2.1
       (mkPayload (some "feedback_text") none (some "great support") (some "U1") (some "C1") (some "T1") none none)
     let o3 := slack_interactivity extOK o2.2.1
       (mkPayload (some "rating_select") (some "5") none (some "U1") (some "C1") (some "T1") none none)
     let o4 := slack_interactivity extOK o3.2.1
       (mkPayload (some "submit_feedback") none none (some "U1") (some "C1") (some "T1") none (some "ok"))
     (o1.2.2 = noEffects ∧ o2.2.2 = noEffects ∧ o3.2.2 = noEffects) ∧
     (lookupSession o3.2.1.sessions (some "U1")).map Session.submittedThreads =
       some Session.empty.submittedThreads ∧
     o4.2.2.dbInserts.map (fun f => (f.rating, f.comments)) = [("5", "ok")] ∧
     o4.1 = .text "Thank you for your valuable feedback!") :=
  c9_last_rating_and_payload_comment extOK
    { sessions := [(some "U1", Session.empty)], jiraId := none,
      sessionId := none, feedbackStore := [] }
    "U1" "3" "great support" "5" "ok" Session.empty (some "C1") (some "T1") none
    (by decide) (by decide) (by decide) rfl rfl

/-! ### Claim C1 -/

/-- C1: the claim says a second submit for the same session persists
nothing and answers "already submitted".  In the code the
`submitted_threads` guard is only checked in the `show_feedback_form`
branch, so a second `submit_feedback` delivery inserts a second identical
record into the backend, answers with the success message again, and
calls the channel-lookup collaborator again. -/
theorem c1_double_submit_repersists :
    (let o1 := slack_interactivity extOK st4 submitU1T1
     let o2 := slack_interactivity extOK o1.2.1 submitU1T1
     o1.2.2.dbInserts.length = 1 ∧
     o1.1 = .text "Thank you for your valuable feedback!" ∧
     o2.2.2.dbInserts.length = 1 ∧
     o2.1 = .text "Thank you for your valuable feedback!" ∧
     o2.1 ≠ .text "You have already submitted feedback for this thread. Thank you!" ∧
     o2.2.2.channelLookups = [some "C1"] ∧
     o2.2.1.feedbackStore.length = 2) := by
  decide

/-! ### Claim C5 -/

/-- Projection of the state component of an events-endpoint result
(plumbing for stating closed facts about `slack_events` runs). -/
def eventsState (r : Except PyError (EResponse × AppState × Effects))
    (fallback : AppState) : AppState :=
  match r with
  | .ok x => x.2.1
  | .error _ => fallback

/-- Projection of the response component of an events-endpoint result. -/
def eventsResp? (r : Except PyError (EResponse × AppState × Effects)) :
    Option EResponse :=
  match r with
  | .ok x => some x.1
  | .error _ => none

/-- C5: the claim says sessions and their extracted metadata are keyed by
participant+thread, with no cross-user or cross-thread interference.  In
the code `user_feedback_state` is keyed by user id alone and the
extracted jira/session ids live in process-global keys: a trigger message
in U2's thread T2 overwrites the metadata that U1's pending session in
thread T1 then persists, and the rating U1 chose in the T1 conversation
is reused verbatim by a submit in a different thread T9. -/
theorem c5_cross_session_metadata_leak :
    (let trigger := "The issue you reported has been successfully addressed. JIRA ID: DEF-9. Your reference number is: abc12"
     let evBody : EventBody :=
       { etype := "event_callback", challenge := none, eventType := some "message",
         hasSubtype := false, text := some trigger, channel := some "C2",
         threadTs := some "T2", ts := some "2.0", eventUser := some "U2" }
     let ev := slack_events "sec" (fun _ _ => "H") (some "1700000000") (some "v0=H") "B"
       evBody extOK st4
     let st1 := eventsState ev st4
     eventsResp? ev = some .ok ∧
     st4.jiraId = some "OLD-1" ∧
     st1.jiraId = some "DEF-9" ∧
     st1.sessionId = some "abc12" ∧
     (let out := slack_interactivity extOK st1 submitU1T1
      out.2.2.dbInserts.map Feedback.jira_id = [some "DEF-9"] ∧
      out.2.2.dbInserts.map Feedback.session_id = [some "abc12"] ∧
      out.2.2.dbInserts.map Feedback.user_id = [some "U1"] ∧
      out.2.2.dbInserts.map Feedback.thread_ts = [some "T1"] ∧
      (let out2 := slack_interactivity extOK out.2.1
         (mkPayload (some "submit_feedback") none none (some "U1") (some "C1") (some "T9") none (some "x"))
       out2.2.2.dbInserts.map Feedback.rating = ["4"] ∧
       out2.2.2.dbInserts.map Feedback.thread_ts = [some "T9"] ∧
       out2.1 = .text "Thank you for your valuable feedback!"))) := by
  decide

end FeedbackApp
